import Mathlib

/-!
Verification development for the DevForge pipeline orchestrator and its
Chronicle recorder (src/pipeline.py, src/agents/chronicle/chronicle_agent.py).

The embedding translates the event log, the recorder operations, the report
synthesis, and the orchestrator control flow of run_full_pipeline.  Wall-clock
data (timestamps, elapsed_seconds, duration_seconds in the session summary,
total_duration_seconds in the session_end event) is real time and is omitted
from the embedding; all other event payload fields are carried.  The
input/output summaries produced by _summarize_data over arbitrary Python data
are carried as the strings the callers pass (pure string templating, out of
scope per the spec); the duration_ms entry of the metadata dict, the only
metadata field the Chronicle itself reads, is modelled explicitly.
-/

namespace DevForge

/-- The payload of one Chronicle event, one constructor per value of the
Python events' "type" key.  The issue constructor carries both the resolution
and the stored derived field resolved (= resolution is not None).  The
session_end constructor carries the stored total_events count. -/
inductive EventData where
  | session_start (feature_id : String) (trigger : String)
  | agent_action (agent : String) (action : String)
      (input_summary : String) (output_summary : String) (duration_ms : Option Nat)
  | handoff (from_agent : String) (to_agent : String)
      (artifact : String) (artifact_summary : String)
  | decision (agent : String) (decision_text : String) (rationale : String)
      (alternatives : List String)
  | collaboration (agents : List String) (activity : String) (result : String)
  | checkpoint (stage : String) (status : String)
  | issue (agent : String) (issue_type : String) (description : String)
      (resolution : Option String) (resolved : Bool)
  | session_end (final_status : String) (total_events : Nat)
  deriving DecidableEq

/-- One immutable record of the event log: payload plus the sequence_number
assigned by _record_event at append time. -/
structure Event where
  data : EventData
  sequence_number : Nat
  deriving DecidableEq

/-- The mutable state of a ChronicleAgent instance: the current session id and
the in-memory event log (self.session_id, self.event_log). -/
structure ChronicleState where
  session_id : String
  event_log : List Event
  deriving DecidableEq

/-- _record_event: assign the next sequence number (length + 1) and append. -/
def record_event (c : ChronicleState) (d : EventData) : ChronicleState :=
  { c with event_log := c.event_log ++ [{ data := d, sequence_number := c.event_log.length + 1 }] }

/-- start_session: set a fresh session id (timestamp component omitted), reset
the event log, and record a session_start event. -/
def start_session (c : ChronicleState) (feature_id : String) (trigger : String) : ChronicleState :=
  record_event { c with session_id := "session_" ++ feature_id, event_log := [] }
    (.session_start feature_id trigger)

/-- record_agent_action: append an agent_action event.  duration_ms is
metadata.get("duration_ms") when metadata is given, else None. -/
def record_agent_action (c : ChronicleState) (agent action input_summary output_summary : String)
    (duration_ms : Option Nat) : ChronicleState :=
  record_event c (.agent_action agent action input_summary output_summary duration_ms)

/-- record_handoff: append a handoff event. -/
def record_handoff (c : ChronicleState) (from_agent to_agent artifact artifact_summary : String) :
    ChronicleState :=
  record_event c (.handoff from_agent to_agent artifact artifact_summary)

/-- record_decision: append a decision event (alternatives_considered or []). -/
def record_decision (c : ChronicleState) (agent decision_text rationale : String)
    (alternatives : List String) : ChronicleState :=
  record_event c (.decision agent decision_text rationale alternatives)

/-- record_collaboration: append a collaboration event. -/
def record_collaboration (c : ChronicleState) (agents : List String) (activity result : String) :
    ChronicleState :=
  record_event c (.collaboration agents activity result)

/-- record_checkpoint: append a checkpoint event (elapsed_seconds omitted as
wall-clock). -/
def record_checkpoint (c : ChronicleState) (stage status : String) : ChronicleState :=
  record_event c (.checkpoint stage status)

/-- record_issue: append an issue event; resolved is derived as
resolution is not None. -/
def record_issue (c : ChronicleState) (agent issue_type description : String)
    (resolution : Option String) : ChronicleState :=
  record_event c (.issue agent issue_type description resolution resolution.isSome)

/-- Summary block of a Report (duration_seconds omitted as wall-clock). -/
structure Summary where
  total_events : Nat
  total_agents_involved : Nat
  total_handoffs : Nat
  total_decisions : Nat
  total_issues : Nat
  total_collaborations : Nat
  deriving DecidableEq

/-- One entry of the bottlenecks list produced by _identify_bottlenecks
(the fixed recommendation strings are constants and are not repeated here). -/
inductive Bottleneck where
  | long_execution (agent : String) (action : String) (duration_ms : Nat)
  | unresolved_issues (count : Nat) (issues : List String)
  deriving DecidableEq

/-- The report computed by _generate_report from a closed log.  The purely
rendered fields (timeline descriptions, handoff_chain ASCII art,
agent_statistics, recommendations, narrative) are string templating over the
same buckets and are not modelled. -/
structure Report where
  session_id : String
  summary : Summary
  decision_log : List Event
  issues_encountered : List Event
  collaboration_patterns : List Event
  bottlenecks : List Bottleneck
  deriving DecidableEq

/-- The analysis buckets filled by _generate_report's single pass over the
event log.  agent_actions mirrors the insertion-ordered Python dict
agent -> list of that agent's agent_action events. -/
structure Buckets where
  agent_actions : List (String × List Event)
  handoffs : List Event
  decisions : List Event
  issues : List Event
  collaboration_patterns : List Event
  deriving DecidableEq

/-- agent_actions[agent].append(event), creating the dict entry on first use
(Python dicts preserve insertion order). -/
def addToAgentActions : List (String × List Event) → String → Event → List (String × List Event)
  | [], agent, e => [(agent, [e])]
  | (k, es) :: rest, agent, e =>
      if k = agent then (k, es ++ [e]) :: rest
      else (k, es) :: addToAgentActions rest agent e

/-- One iteration of _generate_report's bucketing loop. -/
def bucketStep (b : Buckets) (e : Event) : Buckets :=
  match e.data with
  | .agent_action agent _ _ _ _ =>
      { b with agent_actions := addToAgentActions b.agent_actions agent e }
  | .handoff _ _ _ _ => { b with handoffs := b.handoffs ++ [e] }
  | .decision _ _ _ _ => { b with decisions := b.decisions ++ [e] }
  | .issue _ _ _ _ _ => { b with issues := b.issues ++ [e] }
  | .collaboration _ _ _ => { b with collaboration_patterns := b.collaboration_patterns ++ [e] }
  | _ => b

/-- The bucketing pass of _generate_report. -/
def bucketEvents (log : List Event) : Buckets :=
  log.foldl bucketStep { agent_actions := [], handoffs := [], decisions := [], issues := [],
                         collaboration_patterns := [] }

/-- The truthiness test Python applies to event.get("duration_ms") in
_identify_bottlenecks: None and 0 are falsy. -/
def durationTruthy : Option Nat → Bool
  | none => false
  | some d => d != 0

/-- The long-execution entry _identify_bottlenecks emits for one event, when
the event is an agent_action with a truthy duration_ms strictly above 60000. -/
def longExecutionOf (e : Event) : Option Bottleneck :=
  match e.data with
  | .agent_action agent action _ _ dur =>
      if durationTruthy dur ∧ dur.getD 0 > 60000 then
        some (.long_execution agent action (dur.getD 0))
      else none
  | _ => none

/-- Is this an issue event whose resolved field is falsy? -/
def isUnresolvedIssue (e : Event) : Bool :=
  match e.data with
  | .issue _ _ _ _ resolved => !resolved
  | _ => false

/-- The description field of an issue event (used for the unresolved_issues
bottleneck's issue list; "" never occurs for non-issue events). -/
def issueDescription (e : Event) : String :=
  match e.data with
  | .issue _ _ d _ _ => d
  | _ => ""

/-- _identify_bottlenecks: long-execution entries in log order, then a single
aggregated unresolved_issues entry when any unresolved issue exists. -/
def identify_bottlenecks (log : List Event) : List Bottleneck :=
  let longs := log.filterMap longExecutionOf
  let unresolved := log.filter isUnresolvedIssue
  if unresolved.isEmpty then longs
  else longs ++ [.unresolved_issues unresolved.length (unresolved.map issueDescription)]

/-- _generate_report: one bucketing pass, then the summary counts are the
bucket sizes and total_events is the log length. -/
def generate_report (c : ChronicleState) : Report :=
  let b := bucketEvents c.event_log
  { session_id := c.session_id
    summary :=
      { total_events := c.event_log.length
        total_agents_involved := b.agent_actions.length
        total_handoffs := b.handoffs.length
        total_decisions := b.decisions.length
        total_issues := b.issues.length
        total_collaborations := b.collaboration_patterns.length }
    decision_log := b.decisions
    issues_encountered := b.issues
    collaboration_patterns := b.collaboration_patterns
    bottlenecks := identify_bottlenecks c.event_log }

/-- end_session: append one session_end event whose total_events is the log
length before the append, then generate (and persist) the report from the
closed log, returning the report alongside the closed state. -/
def end_session (c : ChronicleState) (final_status : String) : Report × ChronicleState :=
  let c' := record_event c (.session_end final_status c.event_log.length)
  (generate_report c', c')

/-- One public recorder call, for quantifying over call sequences. -/
inductive RecorderCall where
  | startSession (feature_id : String) (trigger : String)
  | agentAction (agent action input_summary output_summary : String) (duration_ms : Option Nat)
  | handoffCall (from_agent to_agent artifact artifact_summary : String)
  | decisionCall (agent decision_text rationale : String) (alternatives : List String)
  | collaborationCall (agents : List String) (activity result : String)
  | checkpointCall (stage status : String)
  | issueCall (agent issue_type description : String) (resolution : Option String)
  | endSession (final_status : String)
  deriving DecidableEq

/-- Does this call begin a fresh session (discarding the previous log)? -/
def RecorderCall.isStartSession : RecorderCall → Bool
  | .startSession _ _ => true
  | _ => false

/-- Dispatch one recorder call against the Chronicle state (end_session's
report is returned to the caller; only the state matters here). -/
def applyCall (c : ChronicleState) : RecorderCall → ChronicleState
  | .startSession fid trig => start_session c fid trig
  | .agentAction a act i o d => record_agent_action c a act i o d
  | .handoffCall f t a s => record_handoff c f t a s
  | .decisionCall a d r alts => record_decision c a d r alts
  | .collaborationCall ags act res => record_collaboration c ags act res
  | .checkpointCall st s => record_checkpoint c st s
  | .issueCall a t d r => record_issue c a t d r
  | .endSession s => (end_session c s).2

/-- A fresh ChronicleAgent instance (session_id None modelled as ""). -/
def initialChronicle : ChronicleState := { session_id := "", event_log := [] }

/-!
Pipeline orchestrator (src/pipeline.py, run_full_pipeline).  The collaborator
boundary is the orchestrator's _run_reverse_engineer, _run_web_scraper,
_run_pm_agent, _run_dev_agent, _run_qa_agent and _run_deploy_agent helper
calls: each stage outcome is either the returned summary dict (modelled with
one structure per stage holding exactly the keys run_full_pipeline reads, an
Option where the orchestrator reads the key with .get and a default) or a
raised exception carrying its message string.  The "steps" entries of the run
record keep the step names; the attached stage result dicts are the
collaborator summaries themselves and are not duplicated into the record.
-/

/-- Python's x or default for an optional string: None and "" are falsy. -/
def pyOrString (o : Option String) (dflt : String) : String :=
  match o with
  | some t => if t = "" then dflt else t
  | none => dflt

/-- _run_reverse_engineer's result, as read by run_full_pipeline:
rev_result.get("spec", {}).get("title", ...) and
rev_result.get("tech_stack", {}).get("primary_language", ...) (nested
.get chains collapsed to one optional field each). -/
structure RevResult where
  title : Option String
  primary_language : Option String
  deriving DecidableEq

/-- _run_web_scraper's result, as read by run_full_pipeline. -/
structure ScraperResult where
  competitors_found : Option Nat
  pain_points : Option Nat
  deriving DecidableEq

/-- _run_pm_agent's result: feature_id is read with bare indexing, the
user-story count with .get and default 0. -/
structure PMResult where
  feature_id : String
  user_stories_count : Option Nat
  deriving DecidableEq

/-- _run_dev_agent's result, as read by run_full_pipeline (the frontend and
backend names are nested .get chains ending in default "unknown"). -/
structure DevResult where
  files_generated : Option Nat
  frontend_name : Option String
  backend_name : Option String
  deriving DecidableEq

/-- The summary level of the qa test report: overall_score read with
.get and default 0. -/
structure QASummary where
  overall_score : Option Int
  deriving DecidableEq

/-- The test_report level of the qa result: summary read with .get and
default {}. -/
structure QATestReport where
  summary : Option QASummary
  deriving DecidableEq

/-- _run_qa_agent's result, as read by run_full_pipeline: the quality gate
reads qa_result.get("test_report", {}).get("summary", {}).get("overall_score", 0);
the testing checkpoint reads qa_result.get("status", "unknown"). -/
structure QAResult where
  test_report : Option QATestReport
  overall_score : Option Int
  status : Option String
  deriving DecidableEq

/-- _run_deploy_agent's result, as read by run_full_pipeline: the urls dict
(.get default {}), used only for the final handoff summary. -/
structure DeployResult where
  urls : List (String × String)
  deriving DecidableEq

/-- The outcomes of the six collaborator calls: ok with the stage summary, or
error with the raised exception's message (str(e)). -/
structure Collaborators where
  revR : Except String RevResult
  scraperR : Except String ScraperResult
  pmR : Except String PMResult
  devR : Except String DevResult
  qaR : Except String QAResult
  deployR : Except String DeployResult

/-- Arguments of run_full_pipeline. -/
structure PipelineInput where
  idea : String
  tech_stack : Option String
  source_codebase : Option String
  deriving DecidableEq

/-- The results dict of run_full_pipeline (pipeline_id and started_at are
wall-clock strings and omitted; keys absent until assigned are Options). -/
structure RunResult where
  steps : List String
  status : Option String
  error : Option String
  feature_id : Option String
  chronicle : Option Report
  deriving DecidableEq

/-- How control leaves the try block of run_full_pipeline: falling out the
bottom (success), the early return on the failed-qa path (which skips the
save of the run record), or a raised exception caught by the except clause.
Each carries the run record, the Chronicle state, and whether the deployment
stage's collaborator was invoked. -/
inductive BodyOutcome where
  | completed (r : RunResult) (c : ChronicleState) (deployInvoked : Bool)
  | earlyReturn (r : RunResult) (c : ChronicleState) (deployInvoked : Bool)
  | raised (msg : String) (r : RunResult) (c : ChronicleState) (deployInvoked : Bool)
  deriving DecidableEq

/-- The quality-gate score:
qa_result.get("test_report", {}).get("summary", {}).get("overall_score", 0). -/
def qaScore (qa : QAResult) : Int :=
  match qa.test_report with
  | none => 0
  | some tr =>
    match tr.summary with
    | none => 0
    | some s => s.overall_score.getD 0

/-- The empty results record created at the top of run_full_pipeline. -/
def initRun : RunResult :=
  { steps := [], status := none, error := none, feature_id := none, chronicle := none }

/-- Steps 1-4 of the try block: PM, Dev, QA, the quality gate, and Deploy,
with their Chronicle calls in source order. -/
def stagesFromPM (collab : Collaborators) (idea : String) (tech_stack : Option String)
    (r : RunResult) (c : ChronicleState) : BodyOutcome :=
  match collab.pmR with
  | .error e => .raised e r c false
  | .ok pm =>
    let r := { r with steps := r.steps ++ ["pm"] }
    let feature_id := pm.feature_id
    let c := record_agent_action c "pm" "create_specification" idea "pm result" none
    let ts := pyOrString tech_stack "default stack"
    let c := record_decision c "pm" ("Build with " ++ ts)
      "Based on market research and technical requirements" ["Alternative stacks evaluated"]
    let c := record_checkpoint c "specification" "success"
    let usc := pm.user_stories_count.getD 0
    let c := record_handoff c "pm" "dev" "feature_specification"
      (s!"{usc} user stories, API spec, DB schema")
    match collab.devR with
    | .error e => .raised e r c false
    | .ok dev =>
      let r := { r with steps := r.steps ++ ["dev"] }
      let c := record_agent_action c "dev" "generate_codebase" feature_id "dev result" none
      let c := record_checkpoint c "development" "success"
      let fg := dev.files_generated.getD 0
      let fe := dev.frontend_name.getD "unknown"
      let be := dev.backend_name.getD "unknown"
      let c := record_handoff c "dev" "qa" "codebase" (s!"{fg} files in {fe} + {be}")
      match collab.qaR with
      | .error e => .raised e r c false
      | .ok qa =>
        let r := { r with steps := r.steps ++ ["qa"] }
        let c := record_agent_action c "qa" "test_feature" feature_id "qa result" none
        let c := record_checkpoint c "testing" (qa.status.getD "unknown")
        let score := qaScore qa
        if score < 50 then
          let c := record_issue c "qa" "low_test_score"
            (s!"QA score {score}% below threshold") (some "Pipeline halted for fixes")
          let r := { r with status := some "failed_qa" }
          let c := (end_session c "failed_qa").2
          .earlyReturn r c false
        else
          match collab.deployR with
          | .error e => .raised e r c true
          | .ok dep =>
            let r := { r with steps := r.steps ++ ["deploy"] }
            let c := record_agent_action c "deploy" "deploy_application" feature_id
              "deploy result" none
            let url := match dep.urls with | [] => "local" | (_, v) :: _ => v
            let c := record_handoff c "deploy" "user" "deployed_application"
              ("Available at " ++ url)
            let c := record_checkpoint c "deployment" "success"
            let c := record_collaboration c ["web_scraper", "pm", "dev", "qa", "deploy"]
              "Full pipeline execution" ("Successfully built and deployed " ++ feature_id)
            let r := { r with status := some "success", feature_id := some feature_id }
            let sessionOut := end_session c "success"
            let r := { r with chronicle := some sessionOut.1 }
            .completed r sessionOut.2 true

/-- The try block of run_full_pipeline: the optional reverse-engineer step
(when a source codebase is supplied) or the web-scraper market-research step
(when not), then the common tail from the PM stage. -/
def pipelineBody (collab : Collaborators) (input : PipelineInput)
    (r : RunResult) (c : ChronicleState) : BodyOutcome :=
  match input.source_codebase with
  | some src =>
    match collab.revR with
    | .error e => .raised e r c false
    | .ok rev =>
      let r := { r with steps := r.steps ++ ["reverse_engineer"] }
      let c := record_agent_action c "reverse_engineer" "analyze_codebase" src "rev result" none
      let idea2 := "Rebuild and improve: " ++ (rev.title.getD "Application")
      let ts2 := pyOrString input.tech_stack (rev.primary_language.getD "React, Node.js")
      stagesFromPM collab idea2 (some ts2) r c
  | none =>
    match collab.scraperR with
    | .error e => .raised e r c false
    | .ok sc =>
      let r := { r with steps := r.steps ++ ["web_scraper"] }
      let c := record_agent_action c "web_scraper" "market_research" input.idea
        "scraper result" none
      let cf := sc.competitors_found.getD 0
      let pp := sc.pain_points.getD 0
      let c := record_handoff c "web_scraper" "pm" "market_research_report"
        (s!"{cf} competitors, {pp} pain points")
      stagesFromPM collab input.idea input.tech_stack r c

/-- Everything run_full_pipeline returns or effects that the claims speak
about: the results record, the final Chronicle state, whether the deployment
collaborator was invoked, and how many times the run record was written to
the data directory. -/
structure RunOutcome where
  results : RunResult
  chronicle : ChronicleState
  deployInvoked : Bool
  saveCount : Nat
  deriving DecidableEq

/-- The feature-id placeholder used for the Chronicle session label:
idea.replace(" ", "_")[:30]. -/
def featurePlaceholder (input : PipelineInput) : String :=
  (input.idea.replace " " "_").take 30

/-- run_full_pipeline: start the Chronicle session, run the try block, and
dispatch on how it exits.  Normal completion falls through to the save of the
run record; the failed-qa early return leaves the function before the save;
a raised exception is caught by the except clause, which sets
status = "failed" and error = str(e), records the exception issue, closes the
session with "failed", and then falls through to the save. -/
def run_full_pipeline (collab : Collaborators) (input : PipelineInput)
    (c0 : ChronicleState) : RunOutcome :=
  match pipelineBody collab input initRun
      (start_session c0 (featurePlaceholder input) "pipeline_run") with
  | .completed r c d => { results := r, chronicle := c, deployInvoked := d, saveCount := 1 }
  | .earlyReturn r c d => { results := r, chronicle := c, deployInvoked := d, saveCount := 0 }
  | .raised msg r c d =>
    let r := { r with status := some "failed", error := some msg }
    let c := record_issue c "pipeline" "exception" msg none
    let c := (end_session c "failed").2
    { results := r, chronicle := c, deployInvoked := d, saveCount := 1 }

/-!
Derived predicates and concrete fixtures used by the statements below.
-/

/-- Sequence numbers of the log are exactly 1..length, in log order. -/
def SeqDense (c : ChronicleState) : Prop :=
  c.event_log.map Event.sequence_number = List.range' 1 c.event_log.length

/-- Is this a handoff event? -/
def isHandoffEvent (e : Event) : Bool :=
  match e.data with | .handoff _ _ _ _ => true | _ => false

/-- Is this a decision event? -/
def isDecisionEvent (e : Event) : Bool :=
  match e.data with | .decision _ _ _ _ => true | _ => false

/-- Is this an issue event? -/
def isIssueEvent (e : Event) : Bool :=
  match e.data with | .issue _ _ _ _ _ => true | _ => false

/-- Is this a collaboration event? -/
def isCollaborationEvent (e : Event) : Bool :=
  match e.data with | .collaboration _ _ _ => true | _ => false

/-- The agent of an agent_action event, none for every other event type. -/
def actionAgent (e : Event) : Option String :=
  match e.data with | .agent_action a _ _ _ _ => some a | _ => none

/-- Is this an issue event of the given issue_type? -/
def isIssueOfType (t : String) (e : Event) : Bool :=
  match e.data with | .issue _ ty _ _ _ => ty == t | _ => false

/-- Is this the issue event the except clause of run_full_pipeline records:
agent "pipeline", issue_type "exception", description equal to the message? -/
def isExceptionIssueWith (msg : String) (e : Event) : Bool :=
  match e.data with
  | .issue a ty d _ _ => a == "pipeline" && ty == "exception" && d == msg
  | _ => false

/-- Is this a session_end event with the given final_status? -/
def isSessionEndStatus (st : String) (e : Event) : Bool :=
  match e.data with | .session_end s _ => s == st | _ => false

/-- The last event of the log is a session_end with the given final_status. -/
def sessionClosedWith (c : ChronicleState) (st : String) : Bool :=
  match c.event_log.getLast? with
  | some e => isSessionEndStatus st e
  | none => false

/-- Is this an agent_action event by the given agent? -/
def isActionOf (a : String) (e : Event) : Bool :=
  match e.data with | .agent_action ag _ _ _ _ => ag == a | _ => false

/-- Is this a checkpoint event for the given stage? -/
def isCheckpointOf (st : String) (e : Event) : Bool :=
  match e.data with | .checkpoint s _ => s == st | _ => false

/-- Is this a handoff event from the given agent to the given agent? -/
def isHandoffOf (f t : String) (e : Event) : Bool :=
  match e.data with | .handoff ff tt _ _ => ff == f && tt == t | _ => false

/-- Whether the deployment collaborator was invoked in a body outcome. -/
def deployFlag : BodyOutcome → Bool
  | .completed _ _ d => d
  | .earlyReturn _ _ d => d
  | .raised _ _ _ d => d

/-- The message of the exception the try block raised, if it raised. -/
def raisedMsg? : BodyOutcome → Option String
  | .raised m _ _ _ => some m
  | _ => none

/-- The qa result lacks the test_report.summary.overall_score field (some
nested key of the gate's .get chain is missing). -/
def qaScoreMissing (qa : QAResult) : Bool :=
  match qa.test_report with
  | none => true
  | some tr =>
    match tr.summary with
    | none => true
    | some s => s.overall_score.isNone

/-- A closed session containing one agent_action of the given duration, for
exercising the bottleneck boundary. -/
def boundarySession (d : Nat) : ChronicleState :=
  record_agent_action (start_session initialChronicle "f" "demo") "dev" "gen" "i" "o" (some d)

/-! Concrete collaborator fixtures for witnesses and counterexamples. -/

/-- A market-research summary. -/
def demoScraper : ScraperResult := { competitors_found := some 6, pain_points := some 8 }

/-- A specification summary. -/
def demoPM : PMResult := { feature_id := "feat_1", user_stories_count := some 6 }

/-- A development summary. -/
def demoDev : DevResult :=
  { files_generated := some 20, frontend_name := some "React", backend_name := some "Node" }

/-- A qa summary with the given overall_score. -/
def demoQA (score : Option Int) : QAResult :=
  { test_report := some { summary := some { overall_score := score } },
    overall_score := score, status := some "tested" }

/-- A qa summary with no test_report at all. -/
def qaNoScore : QAResult := { test_report := none, overall_score := none, status := none }

/-- A deployment summary. -/
def demoDeploy : DeployResult := { urls := [("frontend", "http://localhost:3000")] }

/-- All collaborators succeed; the qa score sits exactly on the gate (50). -/
def collabOk : Collaborators :=
  { revR := .error "not used", scraperR := .ok demoScraper, pmR := .ok demoPM,
    devR := .ok demoDev, qaR := .ok (demoQA (some 50)), deployR := .ok demoDeploy }

/-- Like collabOk but the qa score is 49, just below the gate. -/
def collabLow : Collaborators := { collabOk with qaR := .ok (demoQA (some 49)) }

/-- Like collabOk but the development collaborator raises "boom". -/
def collabBoom : Collaborators := { collabOk with devR := .error "boom" }

/-- Like collabOk but the development collaborator raises with an empty
message (str(e) of a bare Exception()). -/
def collabSilent : Collaborators := { collabOk with devR := .error "" }

/-- Like collabOk but the qa result carries no score at all. -/
def collabNoScore : Collaborators := { collabOk with qaR := .ok qaNoScore }

/-- A pipeline invocation for a new idea (no source codebase). -/
def inputDemo : PipelineInput :=
  { idea := "Task management app", tech_stack := none, source_codebase := none }

/-- A sample session: six recorder calls after start_session, ending with
end_session. -/
def demoCalls : List RecorderCall :=
  [.agentAction "web_scraper" "market_research" "idea" "6 competitors found" (some 5000),
   .handoffCall "web_scraper" "pm" "market_research_report" "6 competitors, 8 pain points",
   .decisionCall "pm" "Use React" "Best fit for team expertise" ["Vue"],
   .checkpointCall "development" "success",
   .issueCall "qa" "flaky" "flaky test" none,
   .collaborationCall ["pm", "dev"] "planning" "ok",
   .endSession "success"]

instance {e a : Type} [DecidableEq e] [DecidableEq a] : DecidableEq (Except e a) := fun x y =>
  match x, y with
  | .ok u, .ok v =>
    if h : u = v then .isTrue (congrArg Except.ok h)
    else .isFalse (fun hc => h (Except.ok.inj hc))
  | .ok _, .error _ => .isFalse (fun hc => Except.noConfusion hc)
  | .error _, .ok _ => .isFalse (fun hc => Except.noConfusion hc)
  | .error u, .error v =>
    if h : u = v then .isTrue (congrArg Except.error h)
    else .isFalse (fun hc => h (Except.error.inj hc))

/-!
Lemmas about the Chronicle recorder.
-/

/-- record_event preserves density of the sequence numbers. -/
theorem seqDense_record_event {c : ChronicleState} (h : SeqDense c) (d : EventData) :
    SeqDense (record_event c d) := by
  unfold SeqDense record_event at *
  simp only [List.map_append, List.length_append, List.map_cons, List.map_nil, List.length_cons,
    List.length_nil]
  rw [h]
  have : c.event_log.length + (0 + 1) = c.event_log.length + 1 := by omega
  rw [this, List.range'_1_concat]
  simp [Nat.add_comm]

/-- record_event appends exactly one event. -/
theorem record_event_length (c : ChronicleState) (d : EventData) :
    (record_event c d).event_log.length = c.event_log.length + 1 := by
  simp [record_event]

/-- Every recorder call other than start_session is one record_event. -/
theorem applyCall_nonstart (c : ChronicleState) (cl : RecorderCall)
    (h : cl.isStartSession = false) : ∃ d, applyCall c cl = record_event c d := by
  cases cl <;> simp [RecorderCall.isStartSession] at h ⊢ <;> exact ⟨_, rfl⟩

/-- Folding recorder calls that do not restart the session preserves density
and grows the log by one event per call. -/
theorem seqDense_foldl (calls : List RecorderCall)
    (h : ∀ cl ∈ calls, cl.isStartSession = false) (c : ChronicleState) (hc : SeqDense c) :
    SeqDense (calls.foldl applyCall c) ∧
      (calls.foldl applyCall c).event_log.length = c.event_log.length + calls.length := by
  induction calls generalizing c with
  | nil => simpa using hc
  | cons cl t ih =>
    simp only [List.foldl_cons, List.length_cons]
    obtain ⟨d, hd⟩ := applyCall_nonstart c cl (h cl (by simp))
    have ht : ∀ x ∈ t, x.isStartSession = false := fun x hx => h x (by simp [hx])
    have key := ih ht (applyCall c cl) (hd ▸ seqDense_record_event hc d)
    refine ⟨key.1, ?_⟩
    rw [key.2, hd, record_event_length]
    omega

/-- start_session leaves a one-event dense log. -/
theorem start_session_seqDense (c : ChronicleState) (fid trig : String) :
    SeqDense (start_session c fid trig) ∧ (start_session c fid trig).event_log.length = 1 := by
  constructor <;> simp [start_session, record_event, SeqDense, List.range']

/-- The handoff bucket of the report pass collects exactly the handoff
events, in order. -/
theorem bucket_handoffs (log : List Event) (b : Buckets) :
    (log.foldl bucketStep b).handoffs = b.handoffs ++ log.filter isHandoffEvent := by
  induction log generalizing b with
  | nil => simp
  | cons e t ih =>
    simp only [List.foldl_cons, ih, List.filter_cons]
    rcases e with ⟨d, sq⟩
    cases d <;> simp [bucketStep, isHandoffEvent]

/-- The decision bucket collects exactly the decision events, in order. -/
theorem bucket_decisions (log : List Event) (b : Buckets) :
    (log.foldl bucketStep b).decisions = b.decisions ++ log.filter isDecisionEvent := by
  induction log generalizing b with
  | nil => simp
  | cons e t ih =>
    simp only [List.foldl_cons, ih, List.filter_cons]
    rcases e with ⟨d, sq⟩
    cases d <;> simp [bucketStep, isDecisionEvent]

/-- The issue bucket collects exactly the issue events, in order. -/
theorem bucket_issues (log : List Event) (b : Buckets) :
    (log.foldl bucketStep b).issues = b.issues ++ log.filter isIssueEvent := by
  induction log generalizing b with
  | nil => simp
  | cons e t ih =>
    simp only [List.foldl_cons, ih, List.filter_cons]
    rcases e with ⟨d, sq⟩
    cases d <;> simp [bucketStep, isIssueEvent]

/-- The collaboration bucket collects exactly the collaboration events. -/
theorem bucket_collaborations (log : List Event) (b : Buckets) :
    (log.foldl bucketStep b).collaboration_patterns =
      b.collaboration_patterns ++ log.filter isCollaborationEvent := by
  induction log generalizing b with
  | nil => simp
  | cons e t ih =>
    simp only [List.foldl_cons, ih, List.filter_cons]
    rcases e with ⟨d, sq⟩
    cases d <;> simp [bucketStep, isCollaborationEvent]

/-- Inserting into the per-agent dict adds the agent's key exactly when it is
new, at the end. -/
theorem keys_addToAgentActions (m : List (String × List Event)) (a : String) (e : Event) :
    (addToAgentActions m a e).map Prod.fst =
      if a ∈ m.map Prod.fst then m.map Prod.fst else m.map Prod.fst ++ [a] := by
  induction m with
  | nil => simp [addToAgentActions]
  | cons kv rest ih =>
    rcases kv with ⟨k, es⟩
    by_cases hk : k = a
    · simp [addToAgentActions, hk]
    · simp only [addToAgentActions, if_neg hk, List.map_cons, ih]
      by_cases hm : a ∈ rest.map Prod.fst
      · simp [hm, hk]
      · have : ¬ (a = k ∨ a ∈ rest.map Prod.fst) := by
          rintro (rfl | h) <;> simp_all
        simp [hm, List.mem_cons, this, Ne.symm hk]

/-- The keys of the per-agent dict stay distinct and cover exactly the agents
of the agent_action events seen so far. -/
theorem bucket_agent_keys (log : List Event) (b : Buckets)
    (hb : (b.agent_actions.map Prod.fst).Nodup) :
    ((log.foldl bucketStep b).agent_actions.map Prod.fst).Nodup ∧
      ((log.foldl bucketStep b).agent_actions.map Prod.fst).toFinset =
        (b.agent_actions.map Prod.fst).toFinset ∪ (log.filterMap actionAgent).toFinset := by
  induction log generalizing b with
  | nil => simp [hb]
  | cons e t ih =>
    simp only [List.foldl_cons, List.filterMap_cons]
    rcases e with ⟨d, sq⟩
    cases d with
    | agent_action a act i o dur =>
      have hkeys := keys_addToAgentActions b.agent_actions a ⟨.agent_action a act i o dur, sq⟩
      by_cases hm : a ∈ b.agent_actions.map Prod.fst
      · have hb' : ((bucketStep b ⟨.agent_action a act i o dur, sq⟩).agent_actions.map
            Prod.fst).Nodup := by
          simp only [bucketStep, hkeys, if_pos hm]
          exact hb
        have := ih _ hb'
        refine ⟨this.1, ?_⟩
        rw [this.2]
        simp only [bucketStep, hkeys, if_pos hm, actionAgent, List.filterMap_cons]
        simp only [List.toFinset_cons]
        rw [Finset.union_insert]
        exact (Finset.insert_eq_self.2
          (Finset.mem_union_left _ (List.mem_toFinset.2 hm))).symm
      · have hb' : ((bucketStep b ⟨.agent_action a act i o dur, sq⟩).agent_actions.map
            Prod.fst).Nodup := by
          simp only [bucketStep, hkeys, if_neg hm]
          simp [List.nodup_append, hb, hm]
        have := ih _ hb'
        refine ⟨this.1, ?_⟩
        rw [this.2]
        simp only [bucketStep, hkeys, if_neg hm, actionAgent]
        simp only [List.toFinset_append, List.toFinset_cons, List.toFinset_nil]
        rw [Finset.union_insert]
        ext x
        simp [or_comm, or_assoc, or_left_comm]
    | session_start fid trig =>
      have := ih _ (show ((bucketStep b ⟨.session_start fid trig, sq⟩).agent_actions.map
        Prod.fst).Nodup from hb)
      simpa [bucketStep, actionAgent] using this
    | handoff f t2 ar s =>
      have := ih _ (show ((bucketStep b ⟨.handoff f t2 ar s, sq⟩).agent_actions.map
        Prod.fst).Nodup from hb)
      simpa [bucketStep, actionAgent] using this
    | decision a dt r alts =>
      have := ih _ (show ((bucketStep b ⟨.decision a dt r alts, sq⟩).agent_actions.map
        Prod.fst).Nodup from hb)
      simpa [bucketStep, actionAgent] using this
    | collaboration ags act res =>
      have := ih _ (show ((bucketStep b ⟨.collaboration ags act res, sq⟩).agent_actions.map
        Prod.fst).Nodup from hb)
      simpa [bucketStep, actionAgent] using this
    | checkpoint st s =>
      have := ih _ (show ((bucketStep b ⟨.checkpoint st s, sq⟩).agent_actions.map
        Prod.fst).Nodup from hb)
      simpa [bucketStep, actionAgent] using this
    | issue a ty de re rv =>
      have := ih _ (show ((bucketStep b ⟨.issue a ty de re rv, sq⟩).agent_actions.map
        Prod.fst).Nodup from hb)
      simpa [bucketStep, actionAgent] using this
    | session_end fs te =>
      have := ih _ (show ((bucketStep b ⟨.session_end fs te, sq⟩).agent_actions.map
        Prod.fst).Nodup from hb)
      simpa [bucketStep, actionAgent] using this

/-- longExecutionOf emits an entry exactly for an agent_action with the
matching fields and a duration strictly above 60000. -/
theorem longExecutionOf_eq_some (e : Event) (a act : String) (d : Nat) :
    longExecutionOf e = some (.long_execution a act d) ↔
      60000 < d ∧ ∃ i o sq, e = ⟨.agent_action a act i o (some d), sq⟩ := by
  rcases e with ⟨data, sq⟩
  cases data with
  | agent_action ag ac i o dur =>
    cases dur with
    | none => simp [longExecutionOf, durationTruthy]
    | some dd =>
      simp only [longExecutionOf, durationTruthy, Option.getD_some]
      by_cases h6 : 60000 < dd
      · have : (dd != 0) = true := by simp; omega
        rw [if_pos ⟨this, h6⟩]
        constructor
        · rintro h
          injection h with h
          injection h with h1 h2 h3
          subst h1; subst h2; subst h3
          exact ⟨h6, i, o, sq, rfl⟩
        · rintro ⟨hd, i', o', sq', he⟩
          injection he with he hsq
          injection he with e1 e2 e3 e4 e5
          rw [Option.some.injEq] at e5
          subst e1; subst e2; subst e5; subst hsq
          rfl
      · rw [if_neg (by simp; intro _; omega)]
        constructor
        · rintro h; cases h
        · rintro ⟨hd, i', o', sq', he⟩
          injection he with he hsq
          injection he with e1 e2 e3 e4 e5
          exfalso
          apply h6
          rw [Option.some.injEq] at e5
          omega
  | session_start fid trig => simp [longExecutionOf]
  | handoff f t2 ar s => simp [longExecutionOf]
  | decision a2 dt r alts => simp [longExecutionOf]
  | collaboration ags act2 res => simp [longExecutionOf]
  | checkpoint st s => simp [longExecutionOf]
  | issue a2 ty de re rv => simp [longExecutionOf]
  | session_end fs te => simp [longExecutionOf]

/-- Membership of a long_execution entry in the bottleneck list characterises
an agent_action in the log with that duration, strictly above the threshold. -/
theorem long_execution_mem_identify (log : List Event) (a act : String) (d : Nat) :
    Bottleneck.long_execution a act d ∈ identify_bottlenecks log ↔
      60000 < d ∧ ∃ i o sq, (⟨.agent_action a act i o (some d), sq⟩ : Event) ∈ log := by
  unfold identify_bottlenecks
  by_cases hu : (log.filter isUnresolvedIssue).isEmpty
  · rw [if_pos hu, List.mem_filterMap]
    constructor
    · rintro ⟨e, he, hsome⟩
      obtain ⟨h6, i, o, sq, rfl⟩ := (longExecutionOf_eq_some e a act d).1 hsome
      exact ⟨h6, i, o, sq, he⟩
    · rintro ⟨h6, i, o, sq, hmem⟩
      exact ⟨_, hmem, (longExecutionOf_eq_some _ a act d).2 ⟨h6, i, o, sq, rfl⟩⟩
  · rw [if_neg hu, List.mem_append, List.mem_filterMap]
    simp only [List.mem_singleton]
    constructor
    · rintro (⟨e, he, hsome⟩ | hbad)
      · obtain ⟨h6, i, o, sq, rfl⟩ := (longExecutionOf_eq_some e a act d).1 hsome
        exact ⟨h6, i, o, sq, he⟩
      · cases hbad
    · rintro ⟨h6, i, o, sq, hmem⟩
      exact Or.inl ⟨_, hmem, (longExecutionOf_eq_some _ a act d).2 ⟨h6, i, o, sq, rfl⟩⟩

/-!
Lemmas about the pipeline orchestrator.
-/

/-- end_session leaves the session closed with the given status. -/
theorem sessionClosedWith_end_session (c : ChronicleState) (st : String) :
    sessionClosedWith (end_session c st).2 st = true := by
  simp [sessionClosedWith, end_session, record_event, List.getLast?_concat, isSessionEndStatus]

/-- run_full_pipeline when the try block completes normally. -/
theorem run_full_pipeline_of_completed {collab input c0 r c d}
    (h : pipelineBody collab input initRun
      (start_session c0 (featurePlaceholder input) "pipeline_run") = .completed r c d) :
    run_full_pipeline collab input c0 =
      { results := r, chronicle := c, deployInvoked := d, saveCount := 1 } := by
  unfold run_full_pipeline
  rw [h]

/-- run_full_pipeline when the try block returns early (failed qa gate). -/
theorem run_full_pipeline_of_earlyReturn {collab input c0 r c d}
    (h : pipelineBody collab input initRun
      (start_session c0 (featurePlaceholder input) "pipeline_run") = .earlyReturn r c d) :
    run_full_pipeline collab input c0 =
      { results := r, chronicle := c, deployInvoked := d, saveCount := 0 } := by
  unfold run_full_pipeline
  rw [h]

/-- run_full_pipeline when the try block raises: the except clause runs. -/
theorem run_full_pipeline_of_raised {collab input c0 msg r c d}
    (h : pipelineBody collab input initRun
      (start_session c0 (featurePlaceholder input) "pipeline_run") = .raised msg r c d) :
    run_full_pipeline collab input c0 =
      { results := { r with status := some "failed", error := some msg }
        chronicle := (end_session (record_issue c "pipeline" "exception" msg none) "failed").2
        deployInvoked := d, saveCount := 1 } := by
  unfold run_full_pipeline
  rw [h]

/-- Shape of the stage tail on the gate-fail path: early return with the
failed_qa status, the low_test_score issue, and the session closed. -/
theorem stagesFromPM_gate_fail (collab : Collaborators) (idea : String)
    (ts : Option String) (r : RunResult) (c : ChronicleState)
    (p : PMResult) (dv : DevResult) (qa : QAResult)
    (hpm : collab.pmR = .ok p) (hdev : collab.devR = .ok dv) (hqa : collab.qaR = .ok qa)
    (hscore : qaScore qa < 50) :
    ∃ r' c', stagesFromPM collab idea ts r c = .earlyReturn r' c' false ∧
      r'.status = some "failed_qa" ∧ r'.error = r.error ∧
      c'.event_log.any (isIssueOfType "low_test_score") = true ∧
      sessionClosedWith c' "failed_qa" = true := by
  simp only [stagesFromPM, hpm, hdev, hqa, if_pos hscore]
  refine ⟨_, _, rfl, rfl, rfl, ?_, ?_⟩
  · simp [end_session, record_event, record_issue, record_agent_action, record_checkpoint,
      record_handoff, record_decision, List.any_append, isIssueOfType]
  · exact sessionClosedWith_end_session _ _

/-- When the gate passes, the deploy collaborator is invoked. -/
theorem stagesFromPM_gate_pass (collab : Collaborators) (idea : String)
    (ts : Option String) (r : RunResult) (c : ChronicleState)
    (p : PMResult) (dv : DevResult) (qa : QAResult)
    (hpm : collab.pmR = .ok p) (hdev : collab.devR = .ok dv) (hqa : collab.qaR = .ok qa)
    (hscore : ¬ qaScore qa < 50) :
    deployFlag (stagesFromPM collab idea ts r c) = true := by
  unfold stagesFromPM
  rw [hpm, hdev, hqa]
  simp only [if_neg hscore]
  cases collab.deployR <;> simp [deployFlag]

/-- Gate failure lifted through the research step of the try block. -/
theorem pipelineBody_gate_fail (collab : Collaborators) (input : PipelineInput)
    (r : RunResult) (c : ChronicleState) (p : PMResult) (dv : DevResult) (qa : QAResult)
    (hres : match input.source_codebase with
      | some _ => ∃ v, collab.revR = Except.ok v
      | none => ∃ v, collab.scraperR = Except.ok v)
    (hpm : collab.pmR = Except.ok p) (hdev : collab.devR = Except.ok dv)
    (hqa : collab.qaR = Except.ok qa) (hscore : qaScore qa < 50) :
    ∃ r' c', pipelineBody collab input r c = .earlyReturn r' c' false ∧
      r'.status = some "failed_qa" ∧ r'.error = r.error ∧
      c'.event_log.any (isIssueOfType "low_test_score") = true ∧
      sessionClosedWith c' "failed_qa" = true := by
  cases hsrc : input.source_codebase with
  | some src =>
    rw [hsrc] at hres
    obtain ⟨v, hv⟩ := hres
    simp only [pipelineBody, hsrc, hv]
    obtain ⟨r', c', heq, h1, herr, h2, h3⟩ :=
      stagesFromPM_gate_fail collab _ _ _ _ p dv qa hpm hdev hqa hscore
    exact ⟨r', c', heq, h1, herr, h2, h3⟩
  | none =>
    rw [hsrc] at hres
    obtain ⟨v, hv⟩ := hres
    simp only [pipelineBody, hsrc, hv]
    obtain ⟨r', c', heq, h1, herr, h2, h3⟩ :=
      stagesFromPM_gate_fail collab _ _ _ _ p dv qa hpm hdev hqa hscore
    exact ⟨r', c', heq, h1, herr, h2, h3⟩

/-- Gate pass lifted through the research step of the try block. -/
theorem pipelineBody_gate_pass (collab : Collaborators) (input : PipelineInput)
    (r : RunResult) (c : ChronicleState) (p : PMResult) (dv : DevResult) (qa : QAResult)
    (hres : match input.source_codebase with
      | some _ => ∃ v, collab.revR = Except.ok v
      | none => ∃ v, collab.scraperR = Except.ok v)
    (hpm : collab.pmR = Except.ok p) (hdev : collab.devR = Except.ok dv)
    (hqa : collab.qaR = Except.ok qa) (hscore : ¬ qaScore qa < 50) :
    deployFlag (pipelineBody collab input r c) = true := by
  cases hsrc : input.source_codebase with
  | some src =>
    rw [hsrc] at hres
    obtain ⟨v, hv⟩ := hres
    simp only [pipelineBody, hsrc, hv]
    exact stagesFromPM_gate_pass collab _ _ _ _ p dv qa hpm hdev hqa hscore
  | none =>
    rw [hsrc] at hres
    obtain ⟨v, hv⟩ := hres
    simp only [pipelineBody, hsrc, hv]
    exact stagesFromPM_gate_pass collab _ _ _ _ p dv qa hpm hdev hqa hscore

/-- The run's deployInvoked flag is the body's deploy flag. -/
theorem run_deployInvoked (collab : Collaborators) (input : PipelineInput)
    (c0 : ChronicleState) :
    (run_full_pipeline collab input c0).deployInvoked =
      deployFlag (pipelineBody collab input initRun
        (start_session c0 (featurePlaceholder input) "pipeline_run")) := by
  unfold run_full_pipeline
  rcases h : pipelineBody collab input initRun
      (start_session c0 (featurePlaceholder input) "pipeline_run") <;> simp [deployFlag]

/-- A missing score is read as 0 by the gate's chain of defaulted lookups. -/
theorem qaScore_of_missing (qa : QAResult) (h : qaScoreMissing qa = true) : qaScore qa = 0 := by
  rcases qa with ⟨tr, os, st⟩
  cases tr with
  | none => rfl
  | some tr' =>
    cases htr : tr'.summary with
    | none => simp [qaScore, htr]
    | some s =>
      cases hos : s.overall_score with
      | none => simp [qaScore, htr, hos]
      | some x =>
        exfalso
        simp [qaScoreMissing, htr, hos] at h

/-- The run status recorded by each exit of the stage tail. -/
theorem stagesFromPM_statusShape (collab : Collaborators) (idea : String)
    (ts : Option String) (r : RunResult) (c : ChronicleState) :
    (match stagesFromPM collab idea ts r c with
      | .completed r' _ _ => r'.status = some "success"
      | .earlyReturn r' _ _ => r'.status = some "failed_qa"
      | .raised _ _ _ _ => True) := by
  obtain ⟨rev, scr, pm, dv, qa, dep⟩ := collab
  cases pm with
  | error e => simp [stagesFromPM]
  | ok p =>
    cases dv with
    | error e => simp [stagesFromPM]
    | ok d =>
      cases qa with
      | error e => simp [stagesFromPM]
      | ok q =>
        by_cases hs : qaScore q < 50
        · simp [stagesFromPM, hs]
        · cases dep with
          | error e => simp [stagesFromPM, hs]
          | ok dp => simp [stagesFromPM, hs]

/-- The run status recorded by each exit of the whole try block. -/
theorem pipelineBody_statusShape (collab : Collaborators) (input : PipelineInput)
    (r : RunResult) (c : ChronicleState) :
    (match pipelineBody collab input r c with
      | .completed r' _ _ => r'.status = some "success"
      | .earlyReturn r' _ _ => r'.status = some "failed_qa"
      | .raised _ _ _ _ => True) := by
  cases hsrc : input.source_codebase with
  | some src =>
    cases hrev : collab.revR with
    | error e => simp [pipelineBody, hsrc, hrev]
    | ok v =>
      simp only [pipelineBody, hsrc, hrev]
      exact stagesFromPM_statusShape collab _ _ _ _
  | none =>
    cases hscr : collab.scraperR with
    | error e => simp [pipelineBody, hsrc, hscr]
    | ok v =>
      simp only [pipelineBody, hsrc, hscr]
      exact stagesFromPM_statusShape collab _ _ _ _

/-!
The claims.
-/

/-- C1: for every sequence of recorder calls in one session (a start_session
followed by calls that do not restart the session, each appending exactly one
event), the sequence_number fields of the resulting log are exactly 1..N in
log order, with no gaps and no repeats, N being the number of calls. -/
theorem sequence_numbers_dense (fid trig : String) (calls : List RecorderCall)
    (h : ∀ cl ∈ calls, cl.isStartSession = false) (c0 : ChronicleState) :
    (calls.foldl applyCall (applyCall c0 (.startSession fid trig))).event_log.length
        = calls.length + 1 ∧
    (calls.foldl applyCall (applyCall c0 (.startSession fid trig))).event_log.map
        Event.sequence_number = List.range' 1 (calls.length + 1) := by
  have h0 := start_session_seqDense c0 fid trig
  have hfold := seqDense_foldl calls h (applyCall c0 (.startSession fid trig))
    (by simpa [applyCall] using h0.1)
  have hl : (calls.foldl applyCall (applyCall c0 (.startSession fid trig))).event_log.length
      = calls.length + 1 := by
    rw [hfold.2]
    simp [applyCall, h0.2]
    omega
  exact ⟨hl, by have hd := hfold.1; unfold SeqDense at hd; rw [hl] at hd; exact hd⟩

/-- C1 witness: the sample session of eight calls has sequence numbers 1..8. -/
theorem sequence_numbers_dense_witness :
    (∀ cl ∈ demoCalls, cl.isStartSession = false) ∧
    ((demoCalls.foldl applyCall
        (applyCall initialChronicle (.startSession "demo_feature" "demo"))).event_log.length
      = demoCalls.length + 1 ∧
    (demoCalls.foldl applyCall
        (applyCall initialChronicle (.startSession "demo_feature" "demo"))).event_log.map
      Event.sequence_number = List.range' 1 (demoCalls.length + 1)) :=
  ⟨by decide, sequence_numbers_dense "demo_feature" "demo" demoCalls (by decide)
    initialChronicle⟩

/-- C5: end_session appends exactly one session_end event whose total_events
field is the log length before the append, so the closed log is one longer. -/
theorem end_session_appends_one (c : ChronicleState) (st : String) :
    (end_session c st).2.event_log =
      c.event_log ++
        [{ data := .session_end st c.event_log.length,
           sequence_number := c.event_log.length + 1 }] ∧
    (end_session c st).2.event_log.length = c.event_log.length + 1 := by
  constructor
  · rfl
  · simp [end_session, record_event]

/-- C6: the report's summary.total_events is the closed log's length, the
per-type totals count the events of that type, and total_agents_involved is
the number of distinct agents across agent_action events. -/
theorem report_summary_counts (c : ChronicleState) (st : String) :
    (end_session c st).1.summary.total_events = (end_session c st).2.event_log.length ∧
    (end_session c st).1.summary.total_handoffs =
      (end_session c st).2.event_log.countP isHandoffEvent ∧
    (end_session c st).1.summary.total_decisions =
      (end_session c st).2.event_log.countP isDecisionEvent ∧
    (end_session c st).1.summary.total_issues =
      (end_session c st).2.event_log.countP isIssueEvent ∧
    (end_session c st).1.summary.total_collaborations =
      (end_session c st).2.event_log.countP isCollaborationEvent ∧
    (end_session c st).1.summary.total_agents_involved =
      ((end_session c st).2.event_log.filterMap actionAgent).toFinset.card := by
  set log := (end_session c st).2.event_log with hlog
  have h1 : (end_session c st).1.summary.total_events = log.length := rfl
  have hkeys := bucket_agent_keys log
    { agent_actions := [], handoffs := [], decisions := [], issues := [],
      collaboration_patterns := [] } (by simp)
  refine ⟨h1, ?_, ?_, ?_, ?_, ?_⟩
  · show (bucketEvents log).handoffs.length = _
    rw [bucketEvents, bucket_handoffs, List.countP_eq_length_filter]
    simp
  · show (bucketEvents log).decisions.length = _
    rw [bucketEvents, bucket_decisions, List.countP_eq_length_filter]
    simp
  · show (bucketEvents log).issues.length = _
    rw [bucketEvents, bucket_issues, List.countP_eq_length_filter]
    simp
  · show (bucketEvents log).collaboration_patterns.length = _
    rw [bucketEvents, bucket_collaborations, List.countP_eq_length_filter]
    simp
  · show (bucketEvents log).agent_actions.length = _
    have hn := hkeys.1
    have hf := hkeys.2
    rw [bucketEvents] at *
    have hlen : (List.foldl bucketStep
        { agent_actions := [], handoffs := [], decisions := [], issues := [],
          collaboration_patterns := [] } log).agent_actions.length =
        ((List.foldl bucketStep
          { agent_actions := [], handoffs := [], decisions := [], issues := [],
            collaboration_patterns := [] } log).agent_actions.map Prod.fst).length :=
      (List.length_map _ _).symm
    rw [hlen, ← List.toFinset_card_of_nodup hn, hf]
    simp

/-- C7: every recorder operation other than start_session only appends: the
prior log is unchanged and the log grows by exactly the one appended event. -/
theorem recorder_call_appends_only (c : ChronicleState) (cl : RecorderCall)
    (h : cl.isStartSession = false) :
    ∃ e, (applyCall c cl).event_log = c.event_log ++ [e] := by
  obtain ⟨d, hd⟩ := applyCall_nonstart c cl h
  exact ⟨_, by rw [hd]; rfl⟩

/-- C7 witness: a concrete handoff call appends one event to the empty log. -/
theorem recorder_call_appends_only_witness :
    (RecorderCall.handoffCall "pm" "dev" "spec" "6 stories").isStartSession = false ∧
    ∃ e, (applyCall initialChronicle
        (RecorderCall.handoffCall "pm" "dev" "spec" "6 stories")).event_log
      = initialChronicle.event_log ++ [e] :=
  ⟨by decide, recorder_call_appends_only initialChronicle _ (by decide)⟩

/-- C9: the report flags a long_execution bottleneck for an agent_action
exactly when its duration_ms is strictly greater than 60000; concretely, a
60001 ms action is flagged and a 60000 ms one is not. -/
theorem bottleneck_strict_threshold :
    (∀ (c : ChronicleState) (st a act : String) (d : Nat),
      Bottleneck.long_execution a act d ∈ (end_session c st).1.bottlenecks ↔
        (60000 < d ∧ ∃ i o sq,
          (⟨.agent_action a act i o (some d), sq⟩ : Event) ∈ (end_session c st).2.event_log)) ∧
    Bottleneck.long_execution "dev" "gen" 60001 ∈
      (end_session (boundarySession 60001) "success").1.bottlenecks ∧
    Bottleneck.long_execution "dev" "gen" 60000 ∉
      (end_session (boundarySession 60000) "success").1.bottlenecks := by
  refine ⟨?_, by decide, by decide⟩
  intro c st a act d
  show Bottleneck.long_execution a act d ∈ identify_bottlenecks _ ↔ _
  exact long_execution_mem_identify _ a act d

/-- C2: when the stages before the gate succeed and the testing stage's
report yields an overall_score below 50, the deployment collaborator is
never invoked, the run record's status is failed_qa, a low_test_score issue
is recorded and the session is closed with failed_qa; with a score of 50 or
more, the deployment collaborator is invoked. -/
theorem quality_gate_halts (collab : Collaborators) (input : PipelineInput)
    (c0 : ChronicleState) (p : PMResult) (dv : DevResult) (qa : QAResult)
    (hres : match input.source_codebase with
      | some _ => ∃ v, collab.revR = Except.ok v
      | none => ∃ v, collab.scraperR = Except.ok v)
    (hpm : collab.pmR = Except.ok p) (hdev : collab.devR = Except.ok dv)
    (hqa : collab.qaR = Except.ok qa) :
    (qaScore qa < 50 →
      (run_full_pipeline collab input c0).deployInvoked = false ∧
      (run_full_pipeline collab input c0).results.status = some "failed_qa" ∧
      (run_full_pipeline collab input c0).chronicle.event_log.any
        (isIssueOfType "low_test_score") = true ∧
      sessionClosedWith (run_full_pipeline collab input c0).chronicle "failed_qa" = true) ∧
    (50 ≤ qaScore qa → (run_full_pipeline collab input c0).deployInvoked = true) := by
  constructor
  · intro hscore
    obtain ⟨r', c', heq, hst, herr, hiss, hclosed⟩ := pipelineBody_gate_fail collab input initRun
      (start_session c0 (featurePlaceholder input) "pipeline_run") p dv qa hres hpm hdev hqa
      hscore
    rw [run_full_pipeline_of_earlyReturn heq]
    exact ⟨rfl, hst, hiss, hclosed⟩
  · intro hge
    rw [run_deployInvoked]
    exact pipelineBody_gate_pass collab input initRun
      (start_session c0 (featurePlaceholder input) "pipeline_run") p dv qa hres hpm hdev hqa
      (by omega)

/-- C2 witness: with a score of 49 the run halts as failed_qa without
deploying; with a score of exactly 50 the deployment stage is invoked. -/
theorem quality_gate_halts_witness :
    ((run_full_pipeline collabLow inputDemo initialChronicle).deployInvoked = false ∧
     (run_full_pipeline collabLow inputDemo initialChronicle).results.status =
        some "failed_qa" ∧
     (run_full_pipeline collabLow inputDemo initialChronicle).chronicle.event_log.any
        (isIssueOfType "low_test_score") = true ∧
     sessionClosedWith (run_full_pipeline collabLow inputDemo initialChronicle).chronicle
        "failed_qa" = true) ∧
    (run_full_pipeline collabOk inputDemo initialChronicle).deployInvoked = true :=
  ⟨(quality_gate_halts collabLow inputDemo initialChronicle demoPM demoDev (demoQA (some 49))
      ⟨demoScraper, rfl⟩ rfl rfl rfl).1 (by decide),
   (quality_gate_halts collabOk inputDemo initialChronicle demoPM demoDev (demoQA (some 50))
      ⟨demoScraper, rfl⟩ rfl rfl rfl).2 (by decide)⟩

/-- C10: when the stages before the gate succeed and the testing stage's
result lacks the test_report.summary.overall_score field (any nested key
missing), the gate reads the score as 0 and halts as failed_qa without
raising and without invoking the deployment collaborator. -/
theorem missing_score_fails_safe (collab : Collaborators) (input : PipelineInput)
    (c0 : ChronicleState) (p : PMResult) (dv : DevResult) (qa : QAResult)
    (hres : match input.source_codebase with
      | some _ => ∃ v, collab.revR = Except.ok v
      | none => ∃ v, collab.scraperR = Except.ok v)
    (hpm : collab.pmR = Except.ok p) (hdev : collab.devR = Except.ok dv)
    (hqa : collab.qaR = Except.ok qa) (hmiss : qaScoreMissing qa = true) :
    qaScore qa = 0 ∧
    (run_full_pipeline collab input c0).results.status = some "failed_qa" ∧
    (run_full_pipeline collab input c0).results.error = none ∧
    (run_full_pipeline collab input c0).deployInvoked = false := by
  have h0 := qaScore_of_missing qa hmiss
  have hscore : qaScore qa < 50 := by omega
  obtain ⟨r', c', heq, hst, herr, hiss, hclosed⟩ := pipelineBody_gate_fail collab input initRun
    (start_session c0 (featurePlaceholder input) "pipeline_run") p dv qa hres hpm hdev hqa hscore
  rw [run_full_pipeline_of_earlyReturn heq]
  exact ⟨h0, hst, by rw [herr]; rfl, rfl⟩

/-- C10 witness: a qa result with no test_report at all halts as failed_qa. -/
theorem missing_score_fails_safe_witness :
    qaScore qaNoScore = 0 ∧
    (run_full_pipeline collabNoScore inputDemo initialChronicle).results.status =
      some "failed_qa" ∧
    (run_full_pipeline collabNoScore inputDemo initialChronicle).results.error = none ∧
    (run_full_pipeline collabNoScore inputDemo initialChronicle).deployInvoked = false :=
  missing_score_fails_safe collabNoScore inputDemo initialChronicle demoPM demoDev qaNoScore
    ⟨demoScraper, rfl⟩ rfl rfl rfl (by decide)

/-- C3 counterexample: a collaborator can raise an exception whose message is
empty (str of a bare Exception), and then the run record's error string is
empty, not non-empty as the claim states. -/
theorem exception_empty_message_cex :
    collabSilent.devR = Except.error "" ∧
    (run_full_pipeline collabSilent inputDemo initialChronicle).results.status =
      some "failed" ∧
    (run_full_pipeline collabSilent inputDemo initialChronicle).results.error = some "" := by
  refine ⟨rfl, by decide, by decide⟩

/-- C3 as amended: when some stage's collaborator call raises, the run is not
re-raised: the run record carries status failed and an error string equal to
the exception's message (non-empty whenever the message is), a
pipeline/exception issue with that message is recorded, and the session is
closed with failed. -/
theorem exception_handling (collab : Collaborators) (input : PipelineInput)
    (c0 : ChronicleState) (msg : String)
    (h : raisedMsg? (pipelineBody collab input initRun
      (start_session c0 (featurePlaceholder input) "pipeline_run")) = some msg) :
    (run_full_pipeline collab input c0).results.status = some "failed" ∧
    (run_full_pipeline collab input c0).results.error = some msg ∧
    (run_full_pipeline collab input c0).chronicle.event_log.any
      (isExceptionIssueWith msg) = true ∧
    sessionClosedWith (run_full_pipeline collab input c0).chronicle "failed" = true ∧
    (msg ≠ "" → (run_full_pipeline collab input c0).results.error ≠ some "") := by
  rcases hb : pipelineBody collab input initRun
      (start_session c0 (featurePlaceholder input) "pipeline_run") with
    ⟨r, c, d⟩ | ⟨r, c, d⟩ | ⟨m, r, c, d⟩
  · rw [hb] at h; simp [raisedMsg?] at h
  · rw [hb] at h; simp [raisedMsg?] at h
  · rw [hb] at h
    simp only [raisedMsg?, Option.some.injEq] at h
    subst h
    rw [run_full_pipeline_of_raised hb]
    refine ⟨rfl, rfl, ?_, sessionClosedWith_end_session _ _, ?_⟩
    · simp [end_session, record_event, record_issue, List.any_append, isExceptionIssueWith]
    · intro hne hcontra
      simp only [Option.some.injEq] at hcontra
      exact hne hcontra

/-- C3 witness: a development-stage exception with message boom produces a
failed run with that error, the recorded issue, and a failed session. -/
theorem exception_handling_witness :
    (run_full_pipeline collabBoom inputDemo initialChronicle).results.status = some "failed" ∧
    (run_full_pipeline collabBoom inputDemo initialChronicle).results.error = some "boom" ∧
    (run_full_pipeline collabBoom inputDemo initialChronicle).chronicle.event_log.any
      (isExceptionIssueWith "boom") = true ∧
    sessionClosedWith (run_full_pipeline collabBoom inputDemo initialChronicle).chronicle
      "failed" = true ∧
    ("boom" ≠ "" →
      (run_full_pipeline collabBoom inputDemo initialChronicle).results.error ≠ some "") :=
  exception_handling collabBoom inputDemo initialChronicle "boom" (by decide)

/-- C4 counterexample: on the failed_qa path the early return skips the save
of the run record, so it is not written at all, contradicting the claim that
the record is written exactly once regardless of terminal status. -/
theorem run_record_unsaved_cex :
    (run_full_pipeline collabLow inputDemo initialChronicle).results.status =
      some "failed_qa" ∧
    (run_full_pipeline collabLow inputDemo initialChronicle).saveCount = 0 := by
  decide

/-- C4 as amended: the run record is written exactly once when the terminal
status is success or failed, and zero times on the failed_qa early return;
the terminal status is always one of these three. -/
theorem run_record_write_count (collab : Collaborators) (input : PipelineInput)
    (c0 : ChronicleState) :
    ((run_full_pipeline collab input c0).results.status = some "success" ∨
        (run_full_pipeline collab input c0).results.status = some "failed" →
      (run_full_pipeline collab input c0).saveCount = 1) ∧
    ((run_full_pipeline collab input c0).results.status = some "failed_qa" →
      (run_full_pipeline collab input c0).saveCount = 0) ∧
    ((run_full_pipeline collab input c0).results.status = some "success" ∨
      (run_full_pipeline collab input c0).results.status = some "failed_qa" ∨
      (run_full_pipeline collab input c0).results.status = some "failed") := by
  have hshape := pipelineBody_statusShape collab input initRun
    (start_session c0 (featurePlaceholder input) "pipeline_run")
  rcases hb : pipelineBody collab input initRun
      (start_session c0 (featurePlaceholder input) "pipeline_run") with
    ⟨r, c, d⟩ | ⟨r, c, d⟩ | ⟨m, r, c, d⟩
  · rw [hb] at hshape
    rw [run_full_pipeline_of_completed hb]
    simp [hshape]
  · rw [hb] at hshape
    rw [run_full_pipeline_of_earlyReturn hb]
    simp [hshape]
  · rw [run_full_pipeline_of_raised hb]
    simp

/-- C4 witness: a successful run writes the record exactly once. -/
theorem run_record_write_count_witness :
    (run_full_pipeline collabOk inputDemo initialChronicle).saveCount = 1 :=
  (run_record_write_count collabOk inputDemo initialChronicle).1 (Or.inl (by decide))

/-- C8 counterexample: in a successful concrete run, the deployment stage's
handoff event precedes its checkpoint event, so the claimed action then
checkpoint then handoff order is violated for the deployment stage. -/
theorem deploy_event_order_cex :
    (run_full_pipeline collabOk inputDemo initialChronicle).chronicle.event_log.findIdx
        (isHandoffOf "deploy" "user") <
      (run_full_pipeline collabOk inputDemo initialChronicle).chronicle.event_log.findIdx
        (isCheckpointOf "deployment") ∧
    (run_full_pipeline collabOk inputDemo initialChronicle).chronicle.event_log.any
        (isHandoffOf "deploy" "user") = true ∧
    (run_full_pipeline collabOk inputDemo initialChronicle).chronicle.event_log.any
        (isCheckpointOf "deployment") = true := by
  decide

set_option maxHeartbeats 2000000 in
/-- C8 as amended: in every successful run, the specification and development
stages record action, then checkpoint, then handoff, while the deployment
stage records action, then handoff, then checkpoint. -/
theorem stage_event_order (collab : Collaborators) (input : PipelineInput)
    (c0 : ChronicleState) (p : PMResult) (dv : DevResult) (qa : QAResult) (dep : DeployResult)
    (hres : match input.source_codebase with
      | some _ => ∃ v, collab.revR = Except.ok v
      | none => ∃ v, collab.scraperR = Except.ok v)
    (hpm : collab.pmR = Except.ok p) (hdev : collab.devR = Except.ok dv)
    (hqa : collab.qaR = Except.ok qa) (hdep : collab.deployR = Except.ok dep)
    (hscore : ¬ qaScore qa < 50) :
    ((run_full_pipeline collab input c0).chronicle.event_log.findIdx (isActionOf "pm") <
      (run_full_pipeline collab input c0).chronicle.event_log.findIdx
        (isCheckpointOf "specification") ∧
     (run_full_pipeline collab input c0).chronicle.event_log.findIdx
        (isCheckpointOf "specification") <
      (run_full_pipeline collab input c0).chronicle.event_log.findIdx
        (isHandoffOf "pm" "dev")) ∧
    ((run_full_pipeline collab input c0).chronicle.event_log.findIdx (isActionOf "dev") <
      (run_full_pipeline collab input c0).chronicle.event_log.findIdx
        (isCheckpointOf "development") ∧
     (run_full_pipeline collab input c0).chronicle.event_log.findIdx
        (isCheckpointOf "development") <
      (run_full_pipeline collab input c0).chronicle.event_log.findIdx
        (isHandoffOf "dev" "qa")) ∧
    ((run_full_pipeline collab input c0).chronicle.event_log.findIdx (isActionOf "deploy") <
      (run_full_pipeline collab input c0).chronicle.event_log.findIdx
        (isHandoffOf "deploy" "user") ∧
     (run_full_pipeline collab input c0).chronicle.event_log.findIdx
        (isHandoffOf "deploy" "user") <
      (run_full_pipeline collab input c0).chronicle.event_log.findIdx
        (isCheckpointOf "deployment")) := by
  cases hsrc : input.source_codebase with
  | some src =>
    rw [hsrc] at hres
    obtain ⟨v, hv⟩ := hres
    simp only [run_full_pipeline, pipelineBody, hsrc, hv, hpm, hdev, hqa, hdep, stagesFromPM,
      if_neg hscore, record_agent_action, record_checkpoint, record_handoff, record_decision,
      record_collaboration, record_event, start_session, end_session, initRun]
    simp [List.findIdx_cons, isActionOf, isCheckpointOf, isHandoffOf]
  | none =>
    rw [hsrc] at hres
    obtain ⟨v, hv⟩ := hres
    simp only [run_full_pipeline, pipelineBody, hsrc, hv, hpm, hdev, hqa, hdep, stagesFromPM,
      if_neg hscore, record_agent_action, record_checkpoint, record_handoff, record_decision,
      record_collaboration, record_event, start_session, end_session, initRun]
    simp [List.findIdx_cons, isActionOf, isCheckpointOf, isHandoffOf]

/-- C8 witness: the amended ordering holds on a concrete successful run. -/
theorem stage_event_order_witness :
    ((run_full_pipeline collabOk inputDemo initialChronicle).chronicle.event_log.findIdx
        (isActionOf "pm") <
      (run_full_pipeline collabOk inputDemo initialChronicle).chronicle.event_log.findIdx
        (isCheckpointOf "specification") ∧
     (run_full_pipeline collabOk inputDemo initialChronicle).chronicle.event_log.findIdx
        (isCheckpointOf "specification") <
      (run_full_pipeline collabOk inputDemo initialChronicle).chronicle.event_log.findIdx
        (isHandoffOf "pm" "dev")) ∧
    ((run_full_pipeline collabOk inputDemo initialChronicle).chronicle.event_log.findIdx
        (isActionOf "dev") <
      (run_full_pipeline collabOk inputDemo initialChronicle).chronicle.event_log.findIdx
        (isCheckpointOf "development") ∧
     (run_full_pipeline collabOk inputDemo initialChronicle).chronicle.event_log.findIdx
        (isCheckpointOf "development") <
      (run_full_pipeline collabOk inputDemo initialChronicle).chronicle.event_log.findIdx
        (isHandoffOf "dev" "qa")) ∧
    ((run_full_pipeline collabOk inputDemo initialChronicle).chronicle.event_log.findIdx
        (isActionOf "deploy") <
      (run_full_pipeline collabOk inputDemo initialChronicle).chronicle.event_log.findIdx
        (isHandoffOf "deploy" "user") ∧
     (run_full_pipeline collabOk inputDemo initialChronicle).chronicle.event_log.findIdx
        (isHandoffOf "deploy" "user") <
      (run_full_pipeline collabOk inputDemo initialChronicle).chronicle.event_log.findIdx
        (isCheckpointOf "deployment")) :=
  stage_event_order collabOk inputDemo initialChronicle demoPM demoDev (demoQA (some 50))
    demoDeploy ⟨demoScraper, rfl⟩ rfl rfl rfl rfl (by decide)

end DevForge
